import Mathlib

/-!
Verification of the rustbucket honeypot core against its specification.

The definitions below are a shallow embedding of the relevant parts of the
source: the registration and health-check subsystem of src/registration.rs,
the session loop of src/handler.rs, the ChatGPT backend adapter of
src/chatgpt.rs, and the listener dispatch of src/main.rs.  Network and
timer effects are made explicit: every HTTP call site takes the response it
would observe as an argument, and the background loops are modelled as
functions over the list of events (timer ticks with their responses, the
shutdown signal) delivered to them.
-/

namespace Rustbucket

/-- Outcome of one reqwest HTTP call as observed by a call site: either a
response with a status code and a body text, or a transport-level error. -/
inductive HttpResult where
  | ok (status : Nat) (body : String)
  | transportError (msg : String)
deriving DecidableEq

/-- Constant DEFAULT_HEALTH_CHECK_INTERVAL of src/registration.rs, seconds. -/
def DEFAULT_HEALTH_CHECK_INTERVAL : Nat := 300

/-- Constant MAX_BACKOFF_INTERVAL of src/registration.rs, seconds. -/
def MAX_BACKOFF_INTERVAL : Nat := 1800

/-- Constant REDUCED_CHECK_INTERVAL of src/registration.rs, seconds. -/
def REDUCED_CHECK_INTERVAL : Nat := 3600

/-- The RegistrationState struct of src/registration.rs, with the Duration
field in whole seconds. -/
structure RegistrationState where
  name : String
  token : String
  registry_url : String
  health_check_interval : Nat
  health_check_enabled : Bool
deriving DecidableEq

/-- Health endpoint derivation of send_health_check in src/registration.rs:
the registry URL with "/register" replaced by "/health". -/
def health_url (registry_url : String) : String :=
  registry_url.replace "/register" "/health"

/-- Return value of send_health_check in src/registration.rs (lines 266 to
312): the status classification of the response of the health POST.  Only a
200 yields true; 404, 401, 403, 500, every other status and a transport
error all yield false. -/
def send_health_check (resp : HttpResult) : Bool :=
  match resp with
  | HttpResult.ok status _ =>
      if status = 200 then true
      else if status = 404 then false
      else if status = 401 ∨ status = 403 then false
      else if status = 500 then false
      else false
  | HttpResult.transportError _ => false

/-- Log lines emitted by send_health_check in src/registration.rs for one
health POST, as a function of the response. -/
def send_health_check_logs (state : RegistrationState) (resp : HttpResult) :
    List String :=
  match resp with
  | HttpResult.ok status text =>
      if status = 200 then
        ["Health check successful for instance \x27" ++ state.name ++ "\x27"]
      else if status = 404 then
        ["Health check failed: Instance not found in registry (404). Attempting re-registration..."]
      else if status = 401 ∨ status = 403 then
        ["Health check failed: Authentication failure (" ++ toString status
          ++ "). Disabling further health checks."]
      else if status = 500 then
        ["Health check failed: Server error (500) at " ++ health_url state.registry_url
          ++ ". Response: " ++ text]
      else
        ["Health check returned unexpected status: " ++ toString status
          ++ ". Response: " ++ text]
  | HttpResult.transportError e =>
      ["Health check request failed to " ++ health_url state.registry_url ++ ": " ++ e]

/-- Log lines emitted by send_shutdown_health_check in src/registration.rs
for the final shutdown report, as a function of the response. -/
def send_shutdown_health_check_logs (state : RegistrationState) (resp : HttpResult) :
    List String :=
  match resp with
  | HttpResult.ok status _ =>
      if 200 ≤ status ∧ status < 300 then
        ["Successfully notified registry of shutdown for instance \x27"
          ++ state.name ++ "\x27"]
      else
        ["Shutdown notification returned status: " ++ toString status]
  | HttpResult.transportError e =>
      ["Failed to send shutdown notification: " ++ e]

/-- The mutable local state of health_check_background_task in
src/registration.rs: the consecutive_failures counter and the
current_interval the repeating timer is built from, in seconds. -/
structure MonitorState where
  consecutive_failures : Nat
  current_interval : Nat
deriving DecidableEq

/-- One timer-tick iteration of health_check_background_task in
src/registration.rs (lines 227 to 261), given the base interval of the
RegistrationState and the response the health POST of this tick observed.
Returns the updated state and whether the interval timer was re-created
(the calls to interval(current_interval) inside the loop). -/
def health_tick (base : Nat) (s : MonitorState) (resp : HttpResult) :
    MonitorState × Bool :=
  if send_health_check resp then
    if s.current_interval ≠ base then
      ({ consecutive_failures := 0, current_interval := base }, true)
    else
      ({ consecutive_failures := 0, current_interval := s.current_interval }, false)
  else
    let n := s.consecutive_failures + 1
    if 3 ≤ n then
      ({ consecutive_failures := n, current_interval := REDUCED_CHECK_INTERVAL }, true)
    else
      let backoff := 2 ^ (min n 10)
      let new_interval := min backoff MAX_BACKOFF_INTERVAL
      if new_interval ≠ s.current_interval then
        ({ consecutive_failures := n, current_interval := new_interval }, true)
      else
        ({ consecutive_failures := n, current_interval := s.current_interval }, false)

/-- One event delivered to the select arms of health_check_background_task:
either the interval timer fires (carrying the response the resulting health
POST will observe) or the shutdown channel delivers a message. -/
inductive MonitorEvent where
  | tick (resp : HttpResult)
  | shutdown
deriving DecidableEq

/-- The sequence of health POSTs issued by health_check_background_task in
src/registration.rs over a finite prefix of delivered events, recorded by
the status field of their payloads.  Every tick arm sends one "healthy"
report and updates the local state with health_tick; the shutdown arm sends
one final "shutting_down" report and breaks out of the loop. -/
def monitor_run (base : Nat) : MonitorState → List MonitorEvent → List String
  | _, [] => []
  | _, MonitorEvent.shutdown :: _ => ["shutting_down"]
  | s, MonitorEvent.tick resp :: rest =>
      "healthy" :: monitor_run base (health_tick base s resp).1 rest

/-- The RegistrationConfig struct deserialized from Config.toml in
src/registration.rs. -/
structure RegistrationConfig where
  rustbucket_registry_url : Option String
  health_check_interval : Option Nat
  health_check_enabled : Option Bool
deriving DecidableEq

/-- The AppConfig struct of src/registration.rs: the top-level Config.toml
structure with its optional registration section. -/
structure AppConfig where
  registration : Option RegistrationConfig
deriving DecidableEq

/-- Registry URL resolution of register_instance in src/registration.rs
(lines 66 to 101): the RUSTBUCKET_REGISTRY_URL environment variable takes
precedence; otherwise the rustbucket_registry_url key of the registration
section of Config.toml; a missing variable, failed config load, missing
section or missing key all resolve to none. -/
def resolve_registry_url (envUrl : Option String)
    (cfg : Except String AppConfig) : Option String :=
  match envUrl with
  | some url => some url
  | none =>
      match cfg with
      | Except.ok app =>
          match app.registration with
          | some reg => reg.rustbucket_registry_url
          | none => none
      | Except.error _ => none

/-- Health-check settings resolution of register_instance in
src/registration.rs (lines 104 to 122): interval in seconds and enabled
flag, with defaults 300 and true whenever the config file, the section or
the individual keys are absent. -/
def health_settings (cfg : Except String AppConfig) : Nat × Bool :=
  match cfg with
  | Except.ok app =>
      match app.registration with
      | some reg =>
          (reg.health_check_interval.getD DEFAULT_HEALTH_CHECK_INTERVAL,
           reg.health_check_enabled.getD true)
      | none => (DEFAULT_HEALTH_CHECK_INTERVAL, true)
  | Except.error _ => (DEFAULT_HEALTH_CHECK_INTERVAL, true)

/-- Status classification of the one registration POST in
register_instance of src/registration.rs (lines 141 to 172): 200 is a
success; 404, 500, every other status and a transport error are failures. -/
def registration_successful (resp : HttpResult) : Bool :=
  match resp with
  | HttpResult.ok status _ =>
      if status = 200 then true
      else if status = 404 then false
      else if status = 500 then false
      else false
  | HttpResult.transportError _ => false

/-- register_instance of src/registration.rs.  Inputs: the environment
variable, the parsed config file, the generated identity, and the response
of the registration POST as a function of the URL it is sent to.  Returns
some state exactly when the function returns Some(HealthCheckHandle), which
is also exactly when it spawns health_check_background_task with that
state (lines 174 to 191). -/
def register_instance (envUrl : Option String) (cfg : Except String AppConfig)
    (name token : String) (post : String → HttpResult) :
    Option RegistrationState :=
  match resolve_registry_url envUrl cfg with
  | none => none
  | some url =>
      let hs := health_settings cfg
      if registration_successful (post url) && hs.2 then
        some { name := name, token := token, registry_url := url,
               health_check_interval := hs.1, health_check_enabled := hs.2 }
      else none

/-- Log lines of the identity-generation and POST-preparation steps of
register_instance in src/registration.rs (lines 124 to 139), emitted on
every run that resolved a registry URL, before the response arrives. -/
def register_identity_logs (url name token : String) : List String :=
  ["Attempting to register instance with URL: " ++ url,
   "Generated instance name: " ++ name,
   "Generated instance token for debugging: " ++ token,
   "Posting registration data to URL: " ++ url]

/-- One read event observed by the loop of handle_client in
src/handler.rs: a successful nonzero read already lossily decoded to text
(together with whether the following write_all succeeds), a zero-length
read, or a read error. -/
inductive SessionEvent where
  | readData (text : String) (writeOk : Bool)
  | readClosed
  | readErr (msg : String)

/-- The response string handle_client in src/handler.rs computes for one
received chunk: the reply of the ChatService on success, and on failure
the string "Error processing request: " followed by the error value. -/
def respond (chat : String → Except String String) (text : String) : String :=
  match chat text with
  | Except.ok r => r
  | Except.error e => "Error processing request: " ++ e

/-- The loop of handle_client in src/handler.rs (lines 36 to 76), returning
the list of strings written to the connection over a finite prefix of read
events.  The initial_message argument is the banner passed by main.rs; the
loop never uses it.  A zero-length read or a read error breaks the loop
with no further write; a nonzero read produces exactly one write of the
respond string, and a failed write breaks the loop after that attempt. -/
def handle_client (initial_message : String)
    (chat : String → Except String String) :
    List SessionEvent → List String
  | [] => []
  | SessionEvent.readClosed :: _ => []
  | SessionEvent.readErr _ :: _ => []
  | SessionEvent.readData text wOk :: rest =>
      let r := respond chat text
      if wOk then r :: handle_client initial_message chat rest
      else [r]

/-- The PortProfile record of the specification data model: the entries
are read off the match arms of start_listener in src/main.rs. -/
structure PortProfile where
  port : Nat
  protocol : String
  banner : String
deriving DecidableEq

/-- The static port-to-profile table formed by the match arms of
start_listener in src/main.rs (ports 25, 80 and 21 with their banners and
the protocol labels of the log lines); every other port falls to the
default arm and has no profile. -/
def port_profile (p : Nat) : Option PortProfile :=
  if p = 25 then
    some { port := 25, protocol := "SMTP",
           banner := "220 mail.example.com ESMTP Postfix (Ubuntu)" }
  else if p = 80 then
    some { port := 80, protocol := "HTTP",
           banner := "GET / HTTP/1.1\nHost: example.com" }
  else if p = 21 then
    some { port := 21, protocol := "FTP",
           banner := "220 (vsFTPd 3.0.3)" }
  else none

/-- The per-connection dispatch of start_listener in src/main.rs (lines 25
to 65): the spawned task matches on the port of listener_addr, the bound
local address, and calls handle_client with the banner of the matching arm.
The peer port (client_addr.port) is also in scope but is only printed in
the default arm; no session is spawned there.  Returns the initial message
passed to handle_client of the spawned session, if one is spawned. -/
def dispatch_connection (listenerPort peerPort : Nat) : Option String :=
  if listenerPort = 25 then
    some "220 mail.example.com ESMTP Postfix (Ubuntu)"
  else if listenerPort = 80 then
    some "GET / HTTP/1.1\nHost: example.com"
  else if listenerPort = 21 then
    some "220 (vsFTPd 3.0.3)"
  else none

/-- The MessageResponse struct of src/chatgpt.rs. -/
structure MessageResponse where
  content : String
deriving DecidableEq

/-- The Choice struct of src/chatgpt.rs. -/
structure Choice where
  message : MessageResponse
deriving DecidableEq

/-- The ChatGPTResponse struct of src/chatgpt.rs. -/
structure ChatGPTResponse where
  choices : List Choice
deriving DecidableEq

/-- Outcome of running a Rust function that can also abort the calling
task: a normal return, an Err return, or a crash of the task. -/
inductive RustOutcome (α : Type) where
  | ok (val : α)
  | err (msg : String)
  | crashed
deriving DecidableEq

/-- What the backend HTTP call of ChatGPT send_message in src/chatgpt.rs
observes: a transport error, or a response with a status, the result of
deserializing its body as a ChatGPTResponse, and its body text. -/
inductive Upstream where
  | transportError (msg : String)
  | response (status : Nat) (jsonBody : Except String ChatGPTResponse)
      (textBody : String)

/-- The inherent send_message of ChatGPT in src/chatgpt.rs (lines 92 to
149).  A transport error propagates as Err; a non-2xx status returns the
fixed Err string after reading the body; on a 2xx status the body is
deserialized (a deserialization error propagates as Err) and the reply is
built from choices index 0 followed by a newline — indexing an empty
choices list aborts the task. -/
def ChatGPT_send_message (up : Upstream) : RustOutcome String :=
  match up with
  | Upstream.transportError e => RustOutcome.err e
  | Upstream.response status jsonBody _textBody =>
      if 200 ≤ status ∧ status < 300 then
        match jsonBody with
        | Except.error e => RustOutcome.err e
        | Except.ok r =>
            match r.choices with
            | [] => RustOutcome.crashed
            | c :: _ => RustOutcome.ok (c.message.content ++ "\n")
      else
        RustOutcome.err "Failed to get a successful response from ChatGPT"

/-- The ChatService trait implementation for ChatGPT in src/chatgpt.rs
(lines 152 to 161): Ok maps to Ok, Err maps to the string rendering of the
error; a crash of the inherent call propagates as a crash. -/
def ChatGPT_ChatService_send_message (up : Upstream) : RustOutcome String :=
  match ChatGPT_send_message up with
  | RustOutcome.ok r => RustOutcome.ok r
  | RustOutcome.err e => RustOutcome.err e
  | RustOutcome.crashed => RustOutcome.crashed

/-- The StaticMessages struct of src/chatgpt.rs. -/
structure StaticMessages where
  message1 : String
  message2 : String
deriving DecidableEq

/-- The parsed Config.toml as seen by ChatGPT from_config in
src/chatgpt.rs: the llm section, if present and well formed, yields the
static messages. -/
structure LlmSettings where
  llm : Option StaticMessages
deriving DecidableEq

/-- ChatGPT from_config of src/chatgpt.rs (lines 61 to 90).  Inputs: the
result of loading Config.toml (required, so a load error propagates) and
the CHATGPT_API_KEY environment variable.  Checks run in source order:
config load, then the API key, then the static messages. -/
def ChatGPT_from_config (cfg : Except String LlmSettings)
    (apiKey : Option String) : Except String (String × StaticMessages) :=
  match cfg with
  | Except.error e => Except.error e
  | Except.ok settings =>
      match apiKey with
      | none =>
          Except.error "ChatGPT API key not found in environment variable CHATGPT_API_KEY"
      | some key =>
          match settings.llm with
          | none => Except.error "Static messages not found in config file"
          | some sm => Except.ok (key, sm)

/-- How far start_listener of src/main.rs gets for one port: the bind
failed and the error was returned, the task crashed on the unwrap of
ChatGPT new, or the accept loop was entered with the constructed backend. -/
inductive ListenerStart where
  | bindFailed (msg : String)
  | crashed
  | acceptLoop (key : String) (sm : StaticMessages)
deriving DecidableEq

/-- The startup sequence of start_listener in src/main.rs (lines 17 to 24):
bind first (an error is returned with the question-mark operator), then
ChatGPT new unwrapped — an Err there aborts the listener task — and only
then the accept loop. -/
def start_listener (bind : Except String Nat) (cfg : Except String LlmSettings)
    (apiKey : Option String) : ListenerStart :=
  match bind with
  | Except.error e => ListenerStart.bindFailed e
  | Except.ok _ =>
      match ChatGPT_from_config cfg apiKey with
      | Except.error _ => ListenerStart.crashed
      | Except.ok (k, sm) => ListenerStart.acceptLoop k sm

/-- Whether a listener startup outcome ever accepts and serves a
connection: only the accept loop does. -/
def serves_connections : ListenerStart → Bool
  | ListenerStart.acceptLoop _ _ => true
  | _ => false

/-- First state after one failed report starting from the Normal state of
health_check_background_task. -/
def backoff_state1 (base : Nat) (r1 : HttpResult) : MonitorState :=
  (health_tick base { consecutive_failures := 0, current_interval := base } r1).1

/-- State after two consecutive failed reports starting from Normal. -/
def backoff_state2 (base : Nat) (r1 r2 : HttpResult) : MonitorState :=
  (health_tick base (backoff_state1 base r1) r2).1

/-- State after three consecutive failed reports starting from Normal. -/
def backoff_state3 (base : Nat) (r1 r2 r3 : HttpResult) : MonitorState :=
  (health_tick base (backoff_state2 base r1 r2) r3).1

/-- Helper: a successful health report resets the loop state to zero
failures and the base interval. -/
theorem health_tick_success_fst (base : Nat) (s : MonitorState) (r : HttpResult)
    (h : send_health_check r = true) :
    (health_tick base s r).1 =
      { consecutive_failures := 0, current_interval := base } := by
  simp only [health_tick, h, if_true]
  split
  · rfl
  · rename_i hne
    simp only [ne_eq, not_not] at hne
    simp [hne]

/-- Helper: a failed report with fewer than three accumulated failures
moves to the capped doubling interval. -/
theorem health_tick_fail_small (base : Nat) (s : MonitorState) (r : HttpResult)
    (h : send_health_check r = false) (hn : s.consecutive_failures + 1 < 3) :
    (health_tick base s r).1 =
      { consecutive_failures := s.consecutive_failures + 1,
        current_interval :=
          min (2 ^ min (s.consecutive_failures + 1) 10) MAX_BACKOFF_INTERVAL } := by
  simp only [health_tick, h, Bool.false_eq_true, if_false]
  rw [if_neg (by omega)]
  split
  · rfl
  · rename_i hne
    simp only [ne_eq, not_not] at hne
    simp [hne]

/-- Helper: the timer of the backoff branch is re-created exactly when the
new interval differs from the current one. -/
theorem health_tick_fail_small_snd (base : Nat) (s : MonitorState) (r : HttpResult)
    (h : send_health_check r = false) (hn : s.consecutive_failures + 1 < 3) :
    ((health_tick base s r).2 = true ↔
      min (2 ^ min (s.consecutive_failures + 1) 10) MAX_BACKOFF_INTERVAL
        ≠ s.current_interval) := by
  simp only [health_tick, h, Bool.false_eq_true, if_false]
  rw [if_neg (by omega)]
  split
  · rename_i hne
    simpa using hne
  · rename_i hne
    simp only [ne_eq, not_not] at hne
    simp [hne]

/-- Helper: once the counter reaches three the interval becomes the
reduced one-hour interval, whatever the prior state. -/
theorem health_tick_fail_big (base : Nat) (s : MonitorState) (r : HttpResult)
    (h : send_health_check r = false) (hn : 3 ≤ s.consecutive_failures + 1) :
    (health_tick base s r).1 =
      { consecutive_failures := s.consecutive_failures + 1,
        current_interval := REDUCED_CHECK_INTERVAL } := by
  simp only [health_tick, h, Bool.false_eq_true, if_false]
  rw [if_pos (by omega)]

/-- C1: after a health report answered with HTTP 401 the monitor loop of
health_check_background_task keeps scheduling and sending health POSTs: on
the next timer tick another "healthy" report goes out, although
send_health_check classified the 401 as a failure while logging that
further health checks are disabled.  This exhibits the divergence between
the code and the claim (and between the code and its own log message). -/
theorem health_check_continues_after_auth_rejection :
    send_health_check (HttpResult.ok 401 "") = false
    ∧ monitor_run DEFAULT_HEALTH_CHECK_INTERVAL
        { consecutive_failures := 0, current_interval := DEFAULT_HEALTH_CHECK_INTERVAL }
        [MonitorEvent.tick (HttpResult.ok 401 ""), MonitorEvent.tick (HttpResult.ok 200 "")]
        = ["healthy", "healthy"]
    ∧ send_health_check_logs
        { name := "n", token := "t", registry_url := "http://h/register",
          health_check_interval := 300, health_check_enabled := true }
        (HttpResult.ok 401 "")
        = ["Health check failed: Authentication failure (401). Disabling further health checks."] :=
  ⟨rfl, rfl, rfl⟩

/-- C5: a single successful (HTTP 200) health report, from any monitor
state with any number of prior consecutive failures, resets the failure
counter to 0 and the reporting interval to the configured base interval. -/
theorem health_check_success_resets (base : Nat) (s : MonitorState) (r : HttpResult)
    (h : send_health_check r = true) :
    (health_tick base s r).1.consecutive_failures = 0
    ∧ (health_tick base s r).1.current_interval = base := by
  rw [health_tick_success_fst base s r h]
  exact ⟨rfl, rfl⟩

/-- Witness for C5 at a concrete state with five prior failures in the
reduced interval, observing a 200 response. -/
theorem health_check_success_resets_witness :
    send_health_check (HttpResult.ok 200 "") = true
    ∧ (health_tick 300 { consecutive_failures := 5, current_interval := 3600 }
        (HttpResult.ok 200 "")).1.consecutive_failures = 0
    ∧ (health_tick 300 { consecutive_failures := 5, current_interval := 3600 }
        (HttpResult.ok 200 "")).1.current_interval = 300 :=
  ⟨rfl, health_check_success_resets 300
    { consecutive_failures := 5, current_interval := 3600 } (HttpResult.ok 200 "") rfl⟩

/-- C4: starting from the Normal state, consecutive health-report failures
drive the interval to 2 seconds after exactly one failure, 4 seconds after
exactly two, and the reduced 3600-second interval once the counter reaches
three; the reduced transition ignores the prior state, and the backoff
branch re-creates the timer exactly when the new interval differs from the
current one. -/
theorem health_check_backoff_intervals (base : Nat) (r1 r2 r3 : HttpResult)
    (h1 : send_health_check r1 = false) (h2 : send_health_check r2 = false)
    (h3 : send_health_check r3 = false) :
    ((backoff_state1 base r1).consecutive_failures = 1
      ∧ (backoff_state1 base r1).current_interval = 2)
    ∧ ((backoff_state2 base r1 r2).consecutive_failures = 2
      ∧ (backoff_state2 base r1 r2).current_interval = 4)
    ∧ ((backoff_state3 base r1 r2 r3).consecutive_failures = 3
      ∧ (backoff_state3 base r1 r2 r3).current_interval = REDUCED_CHECK_INTERVAL)
    ∧ (∀ (s : MonitorState) (r : HttpResult), send_health_check r = false →
        3 ≤ s.consecutive_failures + 1 →
        (health_tick base s r).1.current_interval = REDUCED_CHECK_INTERVAL)
    ∧ (∀ (s : MonitorState) (r : HttpResult), send_health_check r = false →
        s.consecutive_failures + 1 < 3 →
        ((health_tick base s r).2 = true ↔
          min (2 ^ min (s.consecutive_failures + 1) 10) MAX_BACKOFF_INTERVAL
            ≠ s.current_interval)) := by
  have e1 : backoff_state1 base r1 =
      { consecutive_failures := 1, current_interval := 2 } := by
    unfold backoff_state1
    rw [health_tick_fail_small base _ r1 h1 (by norm_num)]
    norm_num [MAX_BACKOFF_INTERVAL]
  have e2 : backoff_state2 base r1 r2 =
      { consecutive_failures := 2, current_interval := 4 } := by
    unfold backoff_state2
    rw [e1, health_tick_fail_small base _ r2 h2 (by norm_num)]
    norm_num [MAX_BACKOFF_INTERVAL]
  have e3 : backoff_state3 base r1 r2 r3 =
      { consecutive_failures := 3, current_interval := REDUCED_CHECK_INTERVAL } := by
    unfold backoff_state3
    rw [e2, health_tick_fail_big base _ r3 h3 (by norm_num)]
  refine ⟨⟨?_, ?_⟩, ⟨?_, ?_⟩, ⟨?_, ?_⟩, ?_, ?_⟩
  · rw [e1]
  · rw [e1]
  · rw [e2]
  · rw [e2]
  · rw [e3]
  · rw [e3]
  · intro s r hr hn
    rw [health_tick_fail_big base s r hr hn]
  · intro s r hr hn
    exact health_tick_fail_small_snd base s r hr hn

/-- Witness for C4 with three consecutive 500 responses from the default
base interval. -/
theorem health_check_backoff_intervals_witness :
    send_health_check (HttpResult.ok 500 "") = false
    ∧ (backoff_state1 300 (HttpResult.ok 500 "")).current_interval = 2
    ∧ (backoff_state2 300 (HttpResult.ok 500 "") (HttpResult.ok 500 "")).current_interval = 4
    ∧ (backoff_state3 300 (HttpResult.ok 500 "") (HttpResult.ok 500 "")
        (HttpResult.ok 500 "")).current_interval = REDUCED_CHECK_INTERVAL :=
  ⟨rfl,
   (health_check_backoff_intervals 300 (HttpResult.ok 500 "") (HttpResult.ok 500 "")
      (HttpResult.ok 500 "") rfl rfl rfl).1.2,
   (health_check_backoff_intervals 300 (HttpResult.ok 500 "") (HttpResult.ok 500 "")
      (HttpResult.ok 500 "") rfl rfl rfl).2.1.2,
   (health_check_backoff_intervals 300 (HttpResult.ok 500 "") (HttpResult.ok 500 "")
      (HttpResult.ok 500 "") rfl rfl rfl).2.2.1.2⟩

/-- C2 counterexample: with a ChatService failing with the value
"secret detail", a nonzero read produces exactly one write, but that write
is the prefix "Error processing request: " followed by the failure detail
— the detail is contained in the bytes written, and the written string
varies with the failure value, so it is not a hard-coded sentinel. -/
theorem handle_client_error_detail_leaks :
    handle_client "" (fun _ => Except.error "secret detail")
        [SessionEvent.readData "hi" true]
      = ["Error processing request: secret detail"]
    ∧ "Error processing request: secret detail"
      = "Error processing request: " ++ "secret detail" ++ ""
    ∧ handle_client "" (fun _ => Except.error "detail A")
        [SessionEvent.readData "hi" true]
      ≠ handle_client "" (fun _ => Except.error "detail B")
        [SessionEvent.readData "hi" true] :=
  ⟨rfl, rfl, by decide⟩

/-- C2 as amended: for every nonzero read whose ChatService call fails,
handle_client writes exactly one error string for that read, consisting of
the fixed prefix "Error processing request: " followed by the failure
value (so the failure detail is included in the bytes written); on a write
failure the loop exits after that single attempt. -/
theorem handle_client_one_error_write (im : String)
    (chat : String → Except String String) (t e : String) (w : Bool)
    (rest : List SessionEvent) (h : chat t = Except.error e) :
    handle_client im chat (SessionEvent.readData t w :: rest)
      = ("Error processing request: " ++ e)
          :: (if w then handle_client im chat rest else []) := by
  cases w <;> simp [handle_client, respond, h]

/-- Witness for the amended C2 at a concrete always-failing service. -/
theorem handle_client_one_error_write_witness :
    (fun _ : String => (Except.error "boom" : Except String String)) "x"
      = Except.error "boom"
    ∧ handle_client "" (fun _ : String => (Except.error "boom" : Except String String))
        [SessionEvent.readData "x" true]
      = ["Error processing request: boom"] :=
  ⟨rfl, handle_client_one_error_write ""
    (fun _ : String => (Except.error "boom" : Except String String)) "x" "boom" true [] rfl⟩

/-- C9 counterexample: a concrete decoy session on profiled port 25.  The
dispatch passes the SMTP banner to handle_client as its initial message,
but the complete list of bytes written by the session is ["hi"] for a peer
that sends one chunk (and [] for a peer that closes immediately); the
banner does not occur in any written string, so no opening banner is
emitted to the peer. -/
theorem banner_never_emitted :
    dispatch_connection 25 51515
      = some "220 mail.example.com ESMTP Postfix (Ubuntu)"
    ∧ handle_client "220 mail.example.com ESMTP Postfix (Ubuntu)"
        (fun _ => Except.ok "hi") [SessionEvent.readData "x" true] = ["hi"]
    ∧ handle_client "220 mail.example.com ESMTP Postfix (Ubuntu)"
        (fun _ => Except.ok "hi") [SessionEvent.readClosed] = []
    ∧ (¬ ∃ pre post : String,
        "hi" = pre ++ "220 mail.example.com ESMTP Postfix (Ubuntu)" ++ post) := by
  refine ⟨rfl, rfl, rfl, ?_⟩
  rintro ⟨pre, post, hp⟩
  have h2 := congrArg String.length hp
  rw [String.length_append, String.length_append] at h2
  have hb : ("220 mail.example.com ESMTP Postfix (Ubuntu)" : String).length = 43 := rfl
  have hh : ("hi" : String).length = 2 := rfl
  rw [hb, hh] at h2
  omega

/-- C9 as amended: the banner of the PortProfile is passed to the session
handler as its initial-message argument but never written to the peer —
the bytes written by handle_client are independent of the initial
message, for every ChatService and every sequence of read events. -/
theorem handle_client_ignores_initial_message (m1 m2 : String)
    (chat : String → Except String String) (evs : List SessionEvent) :
    handle_client m1 chat evs = handle_client m2 chat evs := by
  induction evs with
  | nil => rfl
  | cons e rest ih =>
      cases e with
      | readData t w => cases w <;> simp [handle_client, ih]
      | readClosed => rfl
      | readErr m => rfl

/-- C8: the profile resolution of the spawned task in start_listener is a
function of the bound listener port only — two accepted connections with
different peer ports on the same listener resolve identically — and the
dispatch agrees with exactly one lookup in the port-profile table at the
bound port: the spawned session, when there is one, receives the banner of
the profile of the bound port. -/
theorem profile_lookup_uses_bound_port (lp pp1 pp2 : Nat) :
    dispatch_connection lp pp1 = dispatch_connection lp pp2
    ∧ dispatch_connection lp pp1
        = Option.map PortProfile.banner (port_profile lp) := by
  constructor
  · rfl
  · unfold dispatch_connection port_profile
    split_ifs <;> rfl

/-- C3: register_instance returns no handle when no registry URL resolves
from the environment variable or the config file; when a URL resolves, a
handle is returned — and the health-check task spawned — exactly when the
single registration POST got HTTP 200 and health checks are enabled; any
non-200 status (404, 5xx, anything else) and a transport failure classify
as unsuccessful. -/
theorem register_instance_monitor_spawn (envUrl : Option String)
    (cfg : Except String AppConfig) (name token : String)
    (post : String → HttpResult) :
    (resolve_registry_url envUrl cfg = none →
      register_instance envUrl cfg name token post = none)
    ∧ (∀ url, resolve_registry_url envUrl cfg = some url →
        ((register_instance envUrl cfg name token post).isSome = true ↔
          (registration_successful (post url) = true
            ∧ (health_settings cfg).2 = true)))
    ∧ (∀ body, registration_successful (HttpResult.ok 200 body) = true)
    ∧ (∀ status body, status ≠ 200 →
        registration_successful (HttpResult.ok status body) = false)
    ∧ (∀ e, registration_successful (HttpResult.transportError e) = false) := by
  refine ⟨?_, ?_, ?_, ?_, ?_⟩
  · intro h
    simp [register_instance, h]
  · intro url h
    simp only [register_instance, h]
    split
    · rename_i hcond
      rw [Bool.and_eq_true] at hcond
      simp [hcond.1, hcond.2]
    · rename_i hcond
      rw [Bool.and_eq_true] at hcond
      simp only [Option.isSome_none, Bool.false_eq_true, false_iff]
      intro hc
      exact hcond ⟨hc.1, hc.2⟩
  · intro body
    rfl
  · intro status body hs
    simp only [registration_successful]
    rw [if_neg hs]
    split_ifs <;> rfl
  · intro e
    rfl

/-- Witness for C3: a URL from the environment variable, an unreadable
config file, and a registry answering 200 yield a spawned monitor. -/
theorem register_instance_monitor_spawn_witness :
    resolve_registry_url (some "http://h/register") (Except.error "boom")
      = some "http://h/register"
    ∧ (register_instance (some "http://h/register") (Except.error "boom") "n" "t"
        (fun _ => HttpResult.ok 200 "ok")).isSome = true :=
  ⟨rfl,
   ((register_instance_monitor_spawn (some "http://h/register") (Except.error "boom")
      "n" "t" (fun _ => HttpResult.ok 200 "ok")).2.1 "http://h/register" rfl).mpr
    ⟨rfl, rfl⟩⟩

/-- C6: evaluation of the ChatService send of the ChatGPT adapter at a
well-formed upstream reply with HTTP status 200 and an empty choices list:
the inherent send_message indexes choices at 0 and the task crashes
instead of returning a descriptive failure value.  With a nonempty choices
list the same call returns the reply, showing the crash is specific to
the unchecked index. -/
theorem send_message_crashes_on_empty_choices :
    ChatGPT_ChatService_send_message
        (Upstream.response 200 (Except.ok { choices := [] }) "")
      = RustOutcome.crashed
    ∧ ChatGPT_send_message
        (Upstream.response 200 (Except.ok { choices := [] }) "")
      = RustOutcome.crashed
    ∧ ChatGPT_ChatService_send_message
        (Upstream.response 200
          (Except.ok { choices := [{ message := { content := "r" } }] }) "")
      = RustOutcome.ok ("r" ++ "\n") :=
  ⟨rfl, rfl, rfl⟩

/-- C7 counterexample: the identity-generation step of register_instance
writes the line "Generated instance token for debugging: " followed by the
complete token to the log, and the log contents differ between two runs
that differ only in the token — the log reveals the full token. -/
theorem token_logged_in_full :
    ("Generated instance token for debugging: " ++ "sEcReTtOkEn012345678901234567890")
      ∈ register_identity_logs "http://h/register" "rustbucket-ab12cd34"
          "sEcReTtOkEn012345678901234567890"
    ∧ register_identity_logs "http://h/register" "rustbucket-ab12cd34" "tokenA"
      ≠ register_identity_logs "http://h/register" "rustbucket-ab12cd34" "tokenB" := by
  constructor
  · simp [register_identity_logs]
  · decide

/-- C7 as amended: register_instance does write the generated token in
full to the log (the debugging line), while the periodic health report and
the shutdown report never write the token: their log output is identical
for any two registration states that agree on the name and the registry
URL but hold different tokens. -/
theorem token_secrecy_amended (url name token : String)
    (s1 s2 : RegistrationState) (resp : HttpResult)
    (hname : s1.name = s2.name) (hurl : s1.registry_url = s2.registry_url) :
    ("Generated instance token for debugging: " ++ token)
      ∈ register_identity_logs url name token
    ∧ send_health_check_logs s1 resp = send_health_check_logs s2 resp
    ∧ send_shutdown_health_check_logs s1 resp
        = send_shutdown_health_check_logs s2 resp := by
  refine ⟨by simp [register_identity_logs], ?_, ?_⟩
  · cases resp <;> simp [send_health_check_logs, hname, hurl]
  · cases resp <;> simp [send_shutdown_health_check_logs, hname, hurl]

/-- Witness for the amended C7 at two concrete states differing only in
the token, across a successful report response. -/
theorem token_secrecy_amended_witness :
    ({ name := "n", token := "tokenA", registry_url := "http://h/register",
       health_check_interval := 300, health_check_enabled := true } : RegistrationState).name
      = ({ name := "n", token := "tokenB", registry_url := "http://h/register",
           health_check_interval := 300, health_check_enabled := true } : RegistrationState).name
    ∧ send_health_check_logs
        { name := "n", token := "tokenA", registry_url := "http://h/register",
          health_check_interval := 300, health_check_enabled := true }
        (HttpResult.ok 200 "")
      = send_health_check_logs
        { name := "n", token := "tokenB", registry_url := "http://h/register",
          health_check_interval := 300, health_check_enabled := true }
        (HttpResult.ok 200 "") :=
  ⟨rfl,
   (token_secrecy_amended "http://h/register" "n" "tokenA"
      { name := "n", token := "tokenA", registry_url := "http://h/register",
        health_check_interval := 300, health_check_enabled := true }
      { name := "n", token := "tokenB", registry_url := "http://h/register",
        health_check_interval := 300, health_check_enabled := true }
      (HttpResult.ok 200 "") rfl rfl).2.1⟩

/-- C10: after a successful bind, start_listener unwraps ChatGPT new;
whenever from_config fails the listener task crashes and never serves a
connection, and from_config fails in each of the three ways the sources
allow: Config.toml unreadable, CHATGPT_API_KEY unset, and the static
messages absent from the config. -/
theorem start_listener_crashes_on_chatgpt_failure (p : Nat)
    (cfg : Except String LlmSettings) (apiKey : Option String) (e : String)
    (h : ChatGPT_from_config cfg apiKey = Except.error e) :
    start_listener (Except.ok p) cfg apiKey = ListenerStart.crashed
    ∧ serves_connections (start_listener (Except.ok p) cfg apiKey) = false
    ∧ (∀ msg, ChatGPT_from_config (Except.error msg) apiKey = Except.error msg)
    ∧ (∀ s : LlmSettings, ChatGPT_from_config (Except.ok s) none
        = Except.error "ChatGPT API key not found in environment variable CHATGPT_API_KEY")
    ∧ (∀ key, ChatGPT_from_config (Except.ok { llm := none }) (some key)
        = Except.error "Static messages not found in config file") := by
  have hs : start_listener (Except.ok p) cfg apiKey = ListenerStart.crashed := by
    simp [start_listener, h]
  refine ⟨hs, ?_, ?_, ?_, ?_⟩
  · rw [hs]
    rfl
  · intro msg
    rfl
  · intro s
    rfl
  · intro key
    rfl

/-- Witness for C10 with a missing Config.toml on port 21. -/
theorem start_listener_crashes_witness :
    ChatGPT_from_config (Except.error "missing Config.toml") none
      = Except.error "missing Config.toml"
    ∧ start_listener (Except.ok 21) (Except.error "missing Config.toml") none
      = ListenerStart.crashed :=
  ⟨rfl,
   (start_listener_crashes_on_chatgpt_failure 21 (Except.error "missing Config.toml")
      none "missing Config.toml" rfl).1⟩

end Rustbucket
